import Mathlib

/-!
Verification of the modbus_constants codec
(sandbox/plc4c/generated-sources/modbus/src/modbus_constants.c).

The file under verification implements parse, serialize and the two length
functions for the modbus_constants message. The spi buffer layer it calls
(read_buffer.h/c, write_buffer.h/c) and the message header are not part of
the sources at hand; those primitives are modelled from the design spec
(cursor-tracked bit-addressable buffers, big-endian unsigned reads/writes,
bounds-checked with no partial advance) and are marked as such below.
-/

/-- Return codes of the plc4c API as used by modbus_constants.c (OK, NO_MEMORY,
PARSE_ERROR). Modelled from the spec: the header defining plc4c_return_code is
not among the sources; OUT_OF_RANGE stands for the OutOfBounds error kind of
spec section 7 (buffer exhausted before a field could be fully read). -/
inductive plc4c_return_code where
  | OK
  | NO_MEMORY
  | PARSE_ERROR
  | OUT_OF_RANGE
deriving DecidableEq, Repr

/-- Big-endian value of a bit list, most significant bit first. -/
def bitsToNat (bs : List Bool) : Nat :=
  bs.foldl (fun acc b => 2 * acc + (if b then 1 else 0)) 0

/-- Big-endian bit pattern of width w for value v, most significant bit first. -/
def natToBits (w v : Nat) : List Bool :=
  (List.range w).map (fun i => v.testBit (w - 1 - i))

/-- View of a byte sequence as a bit stream, most significant bit of each byte
first (the wire order of a big-endian protocol). -/
def bytesToBits (bytes : List Nat) : List Bool :=
  bytes.flatMap (fun b => natToBits 8 b)

/-- Modelled from the spec: the read-buffer type of plc4c/spi/read_buffer.h is
not among the sources. Per spec section 3 a cursor buffer owns byte storage,
viewed here as the bit stream it denotes (capacity counted in bits), together
with the current bit position. -/
structure plc4c_spi_read_buffer where
  data : List Bool
  curPosBit : Nat
deriving DecidableEq, Repr

/-- Modelled from the spec: position query of the read buffer, section 4.1:
returns the current bit offset without side effects. -/
def plc4c_spi_read_get_pos (buf : plc4c_spi_read_buffer) : Nat :=
  buf.curPosBit

/-- Modelled from the spec: plc4c_spi_read_unsigned_int of plc4c/spi/read_buffer.c
is not among the sources. Per section 4.1 it reads bitLength bits starting at the
current position, advances the position by bitLength and returns the big-endian
normalized unsigned value; it fails (OutOfBounds, returning none) when
position + bitLength exceeds the capacity, performing no partial advance. -/
def plc4c_spi_read_unsigned_int (buf : plc4c_spi_read_buffer) (bitLength : Nat) :
    Option (Nat × plc4c_spi_read_buffer) :=
  if buf.curPosBit + bitLength ≤ buf.data.length then
    some (bitsToNat ((buf.data.drop buf.curPosBit).take bitLength),
          { buf with curPosBit := buf.curPosBit + bitLength })
  else
    none

/-- Modelled from the spec: the write-buffer type of plc4c/spi/write_buffer.h is
not among the sources; same representation as the read buffer, pre-sized to its
capacity (spec section 4.2, pre-sized buffer policy). -/
structure plc4c_spi_write_buffer where
  data : List Bool
  curPosBit : Nat
deriving DecidableEq, Repr

/-- Overwrite the bits [pos, pos + bits.length) of data with bits, leaving the
rest unchanged. -/
def writeBitsAt (data : List Bool) (pos : Nat) (bits : List Bool) : List Bool :=
  data.take pos ++ (bits ++ data.drop (pos + bits.length))

/-- Modelled from the spec: plc4c_spi_write_unsigned_int of
plc4c/spi/write_buffer.c is not among the sources. Per section 4.2 it validates
that the value fits in bitLength bits (ValueTooLarge otherwise), writes the bit
pattern at the current position and advances by bitLength; per sections 4.2 and 7
a write past the capacity of the pre-sized buffer fails (OutOfBounds) with no
partial write. Either failure is returned as none. -/
def plc4c_spi_write_unsigned_int (buf : plc4c_spi_write_buffer)
    (bitLength v : Nat) : Option plc4c_spi_write_buffer :=
  if v < 2 ^ bitLength ∧ buf.curPosBit + bitLength ≤ buf.data.length then
    some { data := writeBitsAt buf.data buf.curPosBit (natToBits bitLength v),
           curPosBit := buf.curPosBit + bitLength }
  else
    none

/-- The modbus_constants message. Its header is not among the sources; per spec
section 3 a constant field may omit its slot entirely since the value is
statically known, so the message carries no fields. -/
structure plc4c_modbus_read_write_modbus_constants where
deriving DecidableEq, Repr

/-- Modelled from the spec: the constant declared in modbus_constants.h (not
among the sources); the spec fixes the expected wire value to 502 (0x01F6). -/
def MODBUS_READ_WRITE_MODBUS_CONSTANTS_MODBUS_TCP_DEFAULT_PORT : Nat := 502

/-- Result of a parse call: the return code, the content of the caller-supplied
message out-slot after the call (none models a NULL pointer) and the read buffer
after the call. -/
structure ModbusConstantsParseResult where
  code : plc4c_return_code
  message : Option plc4c_modbus_read_write_modbus_constants
  buf : plc4c_spi_read_buffer
deriving DecidableEq, Repr

/-- Embedding of plc4c_modbus_read_write_modbus_constants_parse
(modbus_constants.c, lines 27-45). allocOk models the outcome of the malloc at
line 32: when it fails the out-slot holds NULL and NO_MEMORY is returned (lines
33-35). Otherwise the constant field is read with plc4c_spi_read_unsigned_int
(line 38) and compared against the expected constant; on mismatch a bare
PARSE_ERROR is returned (line 40; the diagnostic carrying expected and actual is
commented out at line 41), else OK (line 44). Modelled from the spec: the
OutOfBounds failure of the underlying read is always propagated to the caller
(section 7); the C file itself has no branch for it, that plumbing lives in the
spi layer absent from the sources, so it surfaces here as OUT_OF_RANGE with the
buffer unchanged. -/
def plc4c_modbus_read_write_modbus_constants_parse (allocOk : Bool)
    (buf : plc4c_spi_read_buffer) : ModbusConstantsParseResult :=
  if allocOk = false then
    { code := .NO_MEMORY, message := none, buf := buf }
  else
    match plc4c_spi_read_unsigned_int buf 16 with
    | none =>
      { code := .OUT_OF_RANGE, message := some ⟨⟩, buf := buf }
    | some (modbusTcpDefaultPort, buf2) =>
      if modbusTcpDefaultPort ≠ MODBUS_READ_WRITE_MODBUS_CONSTANTS_MODBUS_TCP_DEFAULT_PORT then
        { code := .PARSE_ERROR, message := some ⟨⟩, buf := buf2 }
      else
        { code := .OK, message := some ⟨⟩, buf := buf2 }

/-- Result of a serialize call: the return code and the write buffer after the
call. -/
structure ModbusConstantsSerializeResult where
  code : plc4c_return_code
  buf : plc4c_spi_write_buffer
deriving DecidableEq, Repr

/-- Embedding of plc4c_modbus_read_write_modbus_constants_serialize
(modbus_constants.c, lines 47-53): writes the 16-bit constant with
plc4c_spi_write_unsigned_int (line 50) and returns OK (line 52). The C code
discards the outcome of the write call, so a failed write leaves the buffer
unchanged and serialize still returns OK. The message argument may be NULL
(none); it is never used. -/
def plc4c_modbus_read_write_modbus_constants_serialize
    (buf : plc4c_spi_write_buffer)
    (_message : Option plc4c_modbus_read_write_modbus_constants) :
    ModbusConstantsSerializeResult :=
  match plc4c_spi_write_unsigned_int buf 16
      MODBUS_READ_WRITE_MODBUS_CONSTANTS_MODBUS_TCP_DEFAULT_PORT with
  | some buf2 => { code := .OK, buf := buf2 }
  | none => { code := .OK, buf := buf }

/-- Embedding of plc4c_modbus_read_write_modbus_constants_length_in_bits
(modbus_constants.c, lines 59-66): a uint8_t accumulator starts at 0 and adds 16
for the constant field (hence the mod 256 of uint8_t arithmetic); the buffer is
never touched. -/
def plc4c_modbus_read_write_modbus_constants_length_in_bits
    (_message : Option plc4c_modbus_read_write_modbus_constants) : Nat :=
  (0 + 16) % 256

/-- Embedding of plc4c_modbus_read_write_modbus_constants_length_in_bytes
(modbus_constants.c, lines 55-57): the bit length divided by 8 in uint8_t
arithmetic. -/
def plc4c_modbus_read_write_modbus_constants_length_in_bytes
    (_message : Option plc4c_modbus_read_write_modbus_constants) : Nat :=
  (plc4c_modbus_read_write_modbus_constants_length_in_bits _message / 8) % 256

theorem natToBits_length (w v : Nat) : (natToBits w v).length = w := by
  simp [natToBits]

theorem take_length_of_le {pos : Nat} {d : List Bool} (h : pos ≤ d.length) :
    (d.take pos).length = pos := by
  simp [h]

theorem writeBitsAt_length (d : List Bool) (pos : Nat) (bits : List Bool)
    (h : pos + bits.length ≤ d.length) :
    (writeBitsAt d pos bits).length = d.length := by
  simp [writeBitsAt]
  omega

theorem writeBitsAt_drop_pos (d : List Bool) (pos : Nat) (bits : List Bool)
    (h : pos ≤ d.length) :
    (writeBitsAt d pos bits).drop pos = bits ++ d.drop (pos + bits.length) := by
  rw [writeBitsAt, List.drop_left' (take_length_of_le h)]

theorem writeBitsAt_take_pos (d : List Bool) (pos : Nat) (bits : List Bool)
    (h : pos ≤ d.length) :
    (writeBitsAt d pos bits).take pos = d.take pos := by
  rw [writeBitsAt, List.take_left' (take_length_of_le h)]

theorem writeBitsAt_slice (d : List Bool) (pos : Nat) (bits : List Bool)
    (h : pos ≤ d.length) :
    ((writeBitsAt d pos bits).drop pos).take bits.length = bits := by
  rw [writeBitsAt_drop_pos d pos bits h, List.take_left]

theorem writeBitsAt_drop_end (d : List Bool) (pos : Nat) (bits : List Bool)
    (h : pos ≤ d.length) :
    (writeBitsAt d pos bits).drop (pos + bits.length) = d.drop (pos + bits.length) := by
  rw [writeBitsAt, ← List.append_assoc]
  exact List.drop_left' (by simp [take_length_of_le h])

theorem bitsToNat_natToBits_502 : bitsToNat (natToBits 16 502) = 502 := by
  decide

theorem natToBits_502_bytes : natToBits 16 502 = bytesToBits [1, 246] := by
  decide

theorem serialize_of_capacity {wbuf : plc4c_spi_write_buffer}
    (m : Option plc4c_modbus_read_write_modbus_constants)
    (hcap : wbuf.curPosBit + 16 ≤ wbuf.data.length) :
    plc4c_modbus_read_write_modbus_constants_serialize wbuf m =
      { code := .OK,
        buf := { data := writeBitsAt wbuf.data wbuf.curPosBit (natToBits 16 502),
                 curPosBit := wbuf.curPosBit + 16 } } := by
  unfold plc4c_modbus_read_write_modbus_constants_serialize plc4c_spi_write_unsigned_int
  rw [if_pos ⟨by decide, hcap⟩]
  rfl

theorem serialize_of_exhausted {wbuf : plc4c_spi_write_buffer}
    (m : Option plc4c_modbus_read_write_modbus_constants)
    (hshort : wbuf.data.length < wbuf.curPosBit + 16) :
    plc4c_modbus_read_write_modbus_constants_serialize wbuf m =
      { code := .OK, buf := wbuf } := by
  unfold plc4c_modbus_read_write_modbus_constants_serialize plc4c_spi_write_unsigned_int
  rw [if_neg (by intro hand; exact absurd hand.2 (by omega))]

theorem parse_no_memory (buf : plc4c_spi_read_buffer) :
    plc4c_modbus_read_write_modbus_constants_parse false buf =
      { code := .NO_MEMORY, message := none, buf := buf } :=
  rfl

theorem parse_out_of_bounds (buf : plc4c_spi_read_buffer)
    (hshort : buf.data.length < buf.curPosBit + 16) :
    plc4c_modbus_read_write_modbus_constants_parse true buf =
      { code := .OUT_OF_RANGE, message := some ⟨⟩, buf := buf } := by
  unfold plc4c_modbus_read_write_modbus_constants_parse plc4c_spi_read_unsigned_int
  rw [if_neg (by decide), if_neg (by omega)]

theorem parse_in_bounds (buf : plc4c_spi_read_buffer)
    (hcap : buf.curPosBit + 16 ≤ buf.data.length) :
    plc4c_modbus_read_write_modbus_constants_parse true buf =
      if bitsToNat ((buf.data.drop buf.curPosBit).take 16) = 502 then
        { code := .OK, message := some ⟨⟩,
          buf := { buf with curPosBit := buf.curPosBit + 16 } }
      else
        { code := .PARSE_ERROR, message := some ⟨⟩,
          buf := { buf with curPosBit := buf.curPosBit + 16 } } := by
  unfold plc4c_modbus_read_write_modbus_constants_parse plc4c_spi_read_unsigned_int
  rw [if_neg (by decide), if_pos hcap]
  by_cases h : bitsToNat ((buf.data.drop buf.curPosBit).take 16) = 502 <;>
    simp [h, MODBUS_READ_WRITE_MODBUS_CONSTANTS_MODBUS_TCP_DEFAULT_PORT]

theorem parse_ok_after_write {d : List Bool} {pos : Nat}
    (hcap : pos + 16 ≤ d.length) :
    plc4c_modbus_read_write_modbus_constants_parse true
        ⟨writeBitsAt d pos (natToBits 16 502), pos⟩ =
      { code := .OK, message := some ⟨⟩,
        buf := ⟨writeBitsAt d pos (natToBits 16 502), pos + 16⟩ } := by
  have hlen : (writeBitsAt d pos (natToBits 16 502)).length = d.length :=
    writeBitsAt_length d pos (natToBits 16 502) (by rw [natToBits_length]; exact hcap)
  have hval : bitsToNat (((writeBitsAt d pos (natToBits 16 502)).drop pos).take 16) = 502 := by
    have h := writeBitsAt_slice d pos (natToBits 16 502) (by omega)
    rw [natToBits_length] at h
    rw [h]
    exact bitsToNat_natToBits_502
  rw [parse_in_bounds _ (by show pos + 16 ≤ (writeBitsAt d pos (natToBits 16 502)).length; omega)]
  rw [if_pos hval]

/-- C1: for every modbus_constants message m and every write buffer with at
least 16 bits of free capacity, serializing m returns OK, and parsing the
written data from the same start position (allocation succeeding) returns OK,
yields a message equal to m (the message carries no value slots), and advances
the read cursor by exactly the 16 bits the serializer wrote. -/
theorem C1_round_trip (m : plc4c_modbus_read_write_modbus_constants)
    (wbuf : plc4c_spi_write_buffer)
    (hcap : wbuf.curPosBit + 16 ≤ wbuf.data.length) :
    (plc4c_modbus_read_write_modbus_constants_serialize wbuf (some m)).code =
        plc4c_return_code.OK ∧
    plc4c_modbus_read_write_modbus_constants_parse true
        ⟨(plc4c_modbus_read_write_modbus_constants_serialize wbuf (some m)).buf.data,
          wbuf.curPosBit⟩ =
      { code := .OK, message := some m,
        buf := ⟨(plc4c_modbus_read_write_modbus_constants_serialize wbuf (some m)).buf.data,
                wbuf.curPosBit + 16⟩ } := by
  cases m
  rw [serialize_of_capacity (some ⟨⟩) hcap]
  exact ⟨rfl, parse_ok_after_write hcap⟩

theorem C1_round_trip_witness :
    ((⟨bytesToBits [0, 0], 0⟩ : plc4c_spi_write_buffer).curPosBit + 16 ≤
        (⟨bytesToBits [0, 0], 0⟩ : plc4c_spi_write_buffer).data.length) ∧
    ((plc4c_modbus_read_write_modbus_constants_serialize ⟨bytesToBits [0, 0], 0⟩
          (some ⟨⟩)).code = plc4c_return_code.OK ∧
      plc4c_modbus_read_write_modbus_constants_parse true
          ⟨(plc4c_modbus_read_write_modbus_constants_serialize ⟨bytesToBits [0, 0], 0⟩
              (some ⟨⟩)).buf.data, 0⟩ =
        { code := .OK, message := some ⟨⟩,
          buf := ⟨(plc4c_modbus_read_write_modbus_constants_serialize
                    ⟨bytesToBits [0, 0], 0⟩ (some ⟨⟩)).buf.data, 0 + 16⟩ }) :=
  ⟨by decide, C1_round_trip ⟨⟩ ⟨bytesToBits [0, 0], 0⟩ (by decide)⟩

/-- C2 counterexample: parsing the bytes 0x01 0x7F (value 383, not 502) does
fail with PARSE_ERROR, but the buffer position observable after the error is 16,
the field start plus the field width, not the field-start position 0 that the
claim asserts. -/
theorem C2_counterexample :
    (plc4c_modbus_read_write_modbus_constants_parse true
        ⟨bytesToBits [0x01, 0x7F], 0⟩).code = plc4c_return_code.PARSE_ERROR ∧
    (plc4c_modbus_read_write_modbus_constants_parse true
        ⟨bytesToBits [0x01, 0x7F], 0⟩).buf.curPosBit = 16 ∧
    ¬ (plc4c_modbus_read_write_modbus_constants_parse true
        ⟨bytesToBits [0x01, 0x7F], 0⟩).buf.curPosBit = 0 := by
  decide

/-- C2 (amended): for every read buffer whose next 16 bits, read as a big-endian
unsigned value, differ from the expected constant 502 (allocation succeeding),
parse fails with a bare PARSE_ERROR carrying no expected/actual context (the
diagnostic is commented out in the source), and the buffer position observable
after the error equals the field-start position plus 16: the constant field is
consumed by the read before the comparison. In particular the bytes 0x01 0x7F
(value 383) fail this way. -/
theorem C2_mismatch_detection (buf : plc4c_spi_read_buffer)
    (hcap : buf.curPosBit + 16 ≤ buf.data.length)
    (hne : bitsToNat ((buf.data.drop buf.curPosBit).take 16) ≠ 502) :
    plc4c_modbus_read_write_modbus_constants_parse true buf =
      { code := .PARSE_ERROR, message := some ⟨⟩,
        buf := { buf with curPosBit := buf.curPosBit + 16 } } := by
  rw [parse_in_bounds buf hcap, if_neg hne]

theorem C2_mismatch_detection_witness :
    ((⟨bytesToBits [0x01, 0x7F], 0⟩ : plc4c_spi_read_buffer).curPosBit + 16 ≤
        (⟨bytesToBits [0x01, 0x7F], 0⟩ : plc4c_spi_read_buffer).data.length) ∧
    bitsToNat ((bytesToBits [0x01, 0x7F]).take 16) ≠ 502 ∧
    plc4c_modbus_read_write_modbus_constants_parse true
        ⟨bytesToBits [0x01, 0x7F], 0⟩ =
      { code := .PARSE_ERROR, message := some ⟨⟩,
        buf := ⟨bytesToBits [0x01, 0x7F], 0 + 16⟩ } :=
  ⟨by decide, by decide,
    C2_mismatch_detection ⟨bytesToBits [0x01, 0x7F], 0⟩ (by decide) (by decide)⟩

/-- C3: for every read buffer with fewer than 16 bits remaining from the current
position (allocation succeeding), parse fails with the OutOfBounds code and
returns the buffer unchanged: no bit is consumed and, the spec-modelled read
performing no access at all on a failed bounds check, no byte beyond the
declared capacity is read. -/
theorem C3_bounds_safety (buf : plc4c_spi_read_buffer)
    (hshort : buf.data.length < buf.curPosBit + 16) :
    plc4c_modbus_read_write_modbus_constants_parse true buf =
      { code := .OUT_OF_RANGE, message := some ⟨⟩, buf := buf } :=
  parse_out_of_bounds buf hshort

theorem C3_bounds_safety_witness :
    ((⟨bytesToBits [0x01], 0⟩ : plc4c_spi_read_buffer).data.length <
        (⟨bytesToBits [0x01], 0⟩ : plc4c_spi_read_buffer).curPosBit + 16) ∧
    plc4c_modbus_read_write_modbus_constants_parse true ⟨bytesToBits [0x01], 0⟩ =
      { code := .OUT_OF_RANGE, message := some ⟨⟩, buf := ⟨bytesToBits [0x01], 0⟩ } :=
  ⟨by decide, C3_bounds_safety ⟨bytesToBits [0x01], 0⟩ (by decide)⟩

/-- C4: for every message argument (including NULL) and every write buffer with
at least 16 bits of free capacity, serialize returns OK, advances the write
position by exactly 16, writes exactly the 16-bit big-endian encoding of the
constant 502 — the bit pattern of the bytes 0x01 0xF6 — at the old position,
and leaves every bit before and after that field unchanged. -/
theorem C4_constant_fidelity (m : Option plc4c_modbus_read_write_modbus_constants)
    (wbuf : plc4c_spi_write_buffer)
    (hcap : wbuf.curPosBit + 16 ≤ wbuf.data.length) :
    (plc4c_modbus_read_write_modbus_constants_serialize wbuf m).code =
        plc4c_return_code.OK ∧
    (plc4c_modbus_read_write_modbus_constants_serialize wbuf m).buf.curPosBit =
        wbuf.curPosBit + 16 ∧
    (((plc4c_modbus_read_write_modbus_constants_serialize wbuf m).buf.data.drop
        wbuf.curPosBit).take 16 = bytesToBits [0x01, 0xF6]) ∧
    ((plc4c_modbus_read_write_modbus_constants_serialize wbuf m).buf.data.take
        wbuf.curPosBit = wbuf.data.take wbuf.curPosBit) ∧
    ((plc4c_modbus_read_write_modbus_constants_serialize wbuf m).buf.data.drop
        (wbuf.curPosBit + 16) = wbuf.data.drop (wbuf.curPosBit + 16)) := by
  rw [serialize_of_capacity m hcap]
  refine ⟨rfl, rfl, ?_, ?_, ?_⟩
  · have h := writeBitsAt_slice wbuf.data wbuf.curPosBit (natToBits 16 502) (by omega)
    rw [natToBits_length] at h
    rw [h]
    rw [natToBits_502_bytes]
  · exact writeBitsAt_take_pos wbuf.data wbuf.curPosBit (natToBits 16 502) (by omega)
  · have h := writeBitsAt_drop_end wbuf.data wbuf.curPosBit (natToBits 16 502) (by omega)
    rw [natToBits_length] at h
    exact h

theorem C4_constant_fidelity_witness :
    ((⟨bytesToBits [0, 0], 0⟩ : plc4c_spi_write_buffer).curPosBit + 16 ≤
        (⟨bytesToBits [0, 0], 0⟩ : plc4c_spi_write_buffer).data.length) ∧
    ((plc4c_modbus_read_write_modbus_constants_serialize ⟨bytesToBits [0, 0], 0⟩
          none).code = plc4c_return_code.OK ∧
      (plc4c_modbus_read_write_modbus_constants_serialize ⟨bytesToBits [0, 0], 0⟩
          none).buf.curPosBit = 0 + 16 ∧
      (((plc4c_modbus_read_write_modbus_constants_serialize ⟨bytesToBits [0, 0], 0⟩
          none).buf.data.drop 0).take 16 = bytesToBits [0x01, 0xF6]) ∧
      ((plc4c_modbus_read_write_modbus_constants_serialize ⟨bytesToBits [0, 0], 0⟩
          none).buf.data.take 0 = (bytesToBits [0, 0]).take 0) ∧
      ((plc4c_modbus_read_write_modbus_constants_serialize ⟨bytesToBits [0, 0], 0⟩
          none).buf.data.drop (0 + 16) = (bytesToBits [0, 0]).drop (0 + 16))) :=
  ⟨by decide, C4_constant_fidelity none ⟨bytesToBits [0, 0], 0⟩ (by decide)⟩

/-- C5: for every message argument, length_in_bits returns 16 and
length_in_bytes returns 2, so length_in_bits equals 8 times length_in_bytes;
both are pure functions of the message argument alone and take no buffer. -/
theorem C5_length_consistency (m : Option plc4c_modbus_read_write_modbus_constants) :
    plc4c_modbus_read_write_modbus_constants_length_in_bits m = 16 ∧
    plc4c_modbus_read_write_modbus_constants_length_in_bytes m = 2 ∧
    plc4c_modbus_read_write_modbus_constants_length_in_bits m =
      8 * plc4c_modbus_read_write_modbus_constants_length_in_bytes m := by
  refine ⟨rfl, ?_, ?_⟩ <;>
    simp [plc4c_modbus_read_write_modbus_constants_length_in_bytes,
      plc4c_modbus_read_write_modbus_constants_length_in_bits]

/-- C6 counterexample: on a write buffer with no free capacity the underlying
16-bit write cannot complete (it returns its failure outcome), yet serialize
still returns OK with the buffer unchanged — it does not return a structured
error, refuting the claim at this input. -/
theorem C6_counterexample :
    plc4c_spi_write_unsigned_int ⟨[], 0⟩ 16
        MODBUS_READ_WRITE_MODBUS_CONSTANTS_MODBUS_TCP_DEFAULT_PORT = none ∧
    plc4c_modbus_read_write_modbus_constants_serialize ⟨[], 0⟩ none =
      { code := plc4c_return_code.OK, buf := ⟨[], 0⟩ } := by
  decide

/-- C6 (amended): serialize discards the outcome of the underlying write call:
for every message argument and every write buffer on which the 16-bit write
cannot complete, the write fails, yet serialize still returns OK and the buffer
is unchanged; no error is reported to the caller. -/
theorem C6_encode_error_discarded
    (m : Option plc4c_modbus_read_write_modbus_constants)
    (wbuf : plc4c_spi_write_buffer)
    (hshort : wbuf.data.length < wbuf.curPosBit + 16) :
    plc4c_spi_write_unsigned_int wbuf 16
        MODBUS_READ_WRITE_MODBUS_CONSTANTS_MODBUS_TCP_DEFAULT_PORT = none ∧
    plc4c_modbus_read_write_modbus_constants_serialize wbuf m =
      { code := plc4c_return_code.OK, buf := wbuf } := by
  constructor
  · unfold plc4c_spi_write_unsigned_int
    rw [if_neg (by intro hand; exact absurd hand.2 (by omega))]
  · exact serialize_of_exhausted m hshort

theorem C6_encode_error_discarded_witness :
    (([] : List Bool).length < 0 + 16) ∧
    (plc4c_spi_write_unsigned_int ⟨[], 0⟩ 16
        MODBUS_READ_WRITE_MODBUS_CONSTANTS_MODBUS_TCP_DEFAULT_PORT = none ∧
      plc4c_modbus_read_write_modbus_constants_serialize ⟨[], 0⟩ none =
        { code := plc4c_return_code.OK, buf := ⟨[], 0⟩ }) :=
  ⟨by decide, C6_encode_error_discarded none ⟨[], 0⟩ (by decide)⟩

/-- C7: whenever parse returns OK, the bit position of the buffer after the call
equals the position before the call plus exactly 16, and the buffer contents are
unchanged. -/
theorem C7_cursor_advance (allocOk : Bool) (buf : plc4c_spi_read_buffer)
    (h : (plc4c_modbus_read_write_modbus_constants_parse allocOk buf).code =
      plc4c_return_code.OK) :
    (plc4c_modbus_read_write_modbus_constants_parse allocOk buf).buf.curPosBit =
        buf.curPosBit + 16 ∧
    (plc4c_modbus_read_write_modbus_constants_parse allocOk buf).buf.data =
        buf.data := by
  cases allocOk with
  | false =>
    rw [parse_no_memory] at h
    simp at h
  | true =>
    rcases le_or_lt (buf.curPosBit + 16) buf.data.length with hcap | hshort
    · rw [parse_in_bounds buf hcap] at h ⊢
      by_cases hv : bitsToNat ((buf.data.drop buf.curPosBit).take 16) = 502
      · rw [if_pos hv]
        exact ⟨rfl, rfl⟩
      · rw [if_neg hv] at h
        simp at h
    · rw [parse_out_of_bounds buf hshort] at h
      simp at h

theorem C7_cursor_advance_witness :
    (plc4c_modbus_read_write_modbus_constants_parse true
        ⟨bytesToBits [0x01, 0xF6], 0⟩).code = plc4c_return_code.OK ∧
    ((plc4c_modbus_read_write_modbus_constants_parse true
        ⟨bytesToBits [0x01, 0xF6], 0⟩).buf.curPosBit = 0 + 16 ∧
      (plc4c_modbus_read_write_modbus_constants_parse true
          ⟨bytesToBits [0x01, 0xF6], 0⟩).buf.data = bytesToBits [0x01, 0xF6]) :=
  ⟨by decide, C7_cursor_advance true ⟨bytesToBits [0x01, 0xF6], 0⟩ (by decide)⟩

/-- C8: parse returns NO_MEMORY exactly when the allocation of the output
message fails, and in that case it returns before reading anything: the out-slot
holds NULL and the buffer, its cursor position included, is unchanged. -/
theorem C8_allocation_failure (allocOk : Bool) (buf : plc4c_spi_read_buffer) :
    ((plc4c_modbus_read_write_modbus_constants_parse allocOk buf).code =
        plc4c_return_code.NO_MEMORY ↔ allocOk = false) ∧
    (allocOk = false →
      plc4c_modbus_read_write_modbus_constants_parse allocOk buf =
        { code := .NO_MEMORY, message := none, buf := buf }) := by
  cases allocOk with
  | false => exact ⟨⟨fun _ => rfl, fun _ => rfl⟩, fun _ => parse_no_memory buf⟩
  | true =>
    refine ⟨⟨fun h => ?_, fun h => absurd h (by decide)⟩,
            fun h => absurd h (by decide)⟩
    rcases le_or_lt (buf.curPosBit + 16) buf.data.length with hcap | hshort
    · rw [parse_in_bounds buf hcap] at h
      by_cases hv : bitsToNat ((buf.data.drop buf.curPosBit).take 16) = 502
      · rw [if_pos hv] at h
        simp at h
      · rw [if_neg hv] at h
        simp at h
    · rw [parse_out_of_bounds buf hshort] at h
      simp at h

theorem C8_allocation_failure_witness :
    (((plc4c_modbus_read_write_modbus_constants_parse false ⟨[], 0⟩).code =
        plc4c_return_code.NO_MEMORY ↔ false = false) ∧
      (false = false →
        plc4c_modbus_read_write_modbus_constants_parse false ⟨[], 0⟩ =
          { code := .NO_MEMORY, message := none, buf := ⟨[], 0⟩ })) :=
  C8_allocation_failure false ⟨[], 0⟩

/-- C9: whenever parse returns PARSE_ERROR, the out-slot has already been
assigned the freshly allocated message: it is not NULL and is not reset on the
error path. -/
theorem C9_output_assigned_on_error (allocOk : Bool) (buf : plc4c_spi_read_buffer)
    (h : (plc4c_modbus_read_write_modbus_constants_parse allocOk buf).code =
      plc4c_return_code.PARSE_ERROR) :
    (plc4c_modbus_read_write_modbus_constants_parse allocOk buf).message = some ⟨⟩ ∧
    (plc4c_modbus_read_write_modbus_constants_parse allocOk buf).message ≠ none := by
  cases allocOk with
  | false =>
    rw [parse_no_memory] at h
    simp at h
  | true =>
    rcases le_or_lt (buf.curPosBit + 16) buf.data.length with hcap | hshort
    · rw [parse_in_bounds buf hcap] at h ⊢
      by_cases hv : bitsToNat ((buf.data.drop buf.curPosBit).take 16) = 502
      · rw [if_pos hv] at h
        simp at h
      · rw [if_neg hv]
        exact ⟨rfl, by simp⟩
    · rw [parse_out_of_bounds buf hshort] at h
      simp at h

theorem C9_output_assigned_on_error_witness :
    (plc4c_modbus_read_write_modbus_constants_parse true
        ⟨bytesToBits [0x01, 0x7F], 0⟩).code = plc4c_return_code.PARSE_ERROR ∧
    ((plc4c_modbus_read_write_modbus_constants_parse true
        ⟨bytesToBits [0x01, 0x7F], 0⟩).message = some ⟨⟩ ∧
      (plc4c_modbus_read_write_modbus_constants_parse true
          ⟨bytesToBits [0x01, 0x7F], 0⟩).message ≠ none) :=
  ⟨by decide,
    C9_output_assigned_on_error true ⟨bytesToBits [0x01, 0x7F], 0⟩ (by decide)⟩

/-- C10: serialize never uses its message argument: any two message arguments,
NULL included, applied to the same buffer state yield the same return code and
the same resulting buffer. -/
theorem C10_serializer_ignores_message
    (m₁ m₂ : Option plc4c_modbus_read_write_modbus_constants)
    (wbuf : plc4c_spi_write_buffer) :
    plc4c_modbus_read_write_modbus_constants_serialize wbuf m₁ =
      plc4c_modbus_read_write_modbus_constants_serialize wbuf m₂ :=
  rfl
